import Mathlib

/-
Shallow embedding of the az-devops-mcp-server repository.

Source map used below:
- "part_000" : class AzureDevOpsMCPServer (config-driven stdio variant):
  handleToolCall, getTools, per-tool private methods.
- "part_001" : class AzureDevOpsServer (stdio variant with a
  connect_azure_devops tool): initialize registers a ListTools handler and a
  CallTool handler whose catch returns a text envelope without an isError
  flag; the SSE server in mcp-sse-server.ts duplicates the same executeTool
  switch and tool methods verbatim.
- index.ts (config-driven entry): wraps handleToolCall, success becomes a
  text envelope with the JSON-rendered result, failure becomes a text
  envelope with isError set to true.
- mcp-sse-server.ts: express endpoints /health, /auth, /cursor-settings,
  /tools/:toolName, plus the field-by-field connectAzureDevOps assignment
  sequence modelled at step granularity further below.
-/

/-! ## JavaScript value model

Tool arguments arrive as JSON-like JavaScript values.  All argument objects
in this repository are flat (string/number/boolean fields), so object
fields hold scalar values.  `RawArgs` is `none` when the payload is
undefined, null or not an object: every dispatcher branch guards with
`if (!args || typeof args !== 'object')`, which rejects exactly those. -/

inductive JsonVal where
  | str (s : String)
  | num (n : Int)
  | bool (b : Bool)
  | jnull
deriving DecidableEq

abbrev JsonObj := List (String × JsonVal)

abbrev RawArgs := Option JsonObj

/-- JavaScript truthiness of a value: empty string, 0, false and null are
falsy. -/
def truthyV : JsonVal → Bool
  | .str s => s != ""
  | .num n => n != 0
  | .bool b => b
  | .jnull => false

/-- Truthiness of a possibly-undefined value (absent object field). -/
def truthyO : Option JsonVal → Bool
  | none => false
  | some v => truthyV v

/-- JavaScript `a || b`: the left operand when truthy, otherwise the right
operand (which may itself be undefined). -/
def jsOr (a b : Option JsonVal) : Option JsonVal :=
  if truthyO a then a else b

/-- Rendering of a value inside a template literal string. -/
def renderO : Option JsonVal → String
  | none => "undefined"
  | some (.str s) => s
  | some (.num n) => toString n
  | some (.bool b) => if b then "true" else "false"
  | some .jnull => "null"

/-! ## Response envelope

Both transports return `content: [ (type: "text", text) ]` with an
optional `isError` flag; an absent flag is modelled as `false`. -/

structure TextContent where
  type : String
  text : String
deriving DecidableEq

structure Envelope where
  content : List TextContent
  isError : Bool := false
deriving DecidableEq

/-- The single-text envelope shape every tool method builds. -/
def mkText (s : String) : Envelope :=
  { content := [{ type := "text", text := s }], isError := false }

/-- Whether an `Except` outcome is the thrown/error case. -/
def exceptHasError {ε α : Type} : Except ε α → Bool
  | .error _ => true
  | .ok _ => false

/-! ## part_000: AzureDevOpsMCPServer (config-driven variant)

`handleToolCall(name, args)` validates arguments, substitutes the
configured default project, and routes to a private backend method; any
thrown error is re-thrown wrapped as `Error calling tool: <message>`.
`handleRoute` is the pure validation-and-routing stage: it returns which
backend call would be performed with which argument values, or the thrown
validation message. -/

structure AzureDevOpsConfig where
  orgUrl : String
  token : String
  project : Option String
deriving DecidableEq

/-- Which private backend method `handleToolCall` invokes, with the exact
argument values passed to it. -/
inductive Call000 where
  | listProjects
  | listWorkItems (project : JsonVal) (query : Option JsonVal)
  | createWorkItem (project type title : JsonVal) (description : Option JsonVal)
  | listBuilds (project : JsonVal)
  | listRepositories (project : JsonVal)
deriving DecidableEq

/-- Validation and routing stage of `handleToolCall` in part_000.
`list_projects` ignores its arguments entirely (no object check in that
case of the switch).  The other tools first check the arguments are an
object, then check required fields for truthiness, with
`args.project || this.config.project` substituting the configured default
project. -/
def handleRoute (cfg : AzureDevOpsConfig) (name : String) (args : RawArgs) :
    Except String Call000 :=
  match name with
  | "list_projects" => .ok .listProjects
  | "list_work_items" =>
    match args with
    | none => .error "Invalid arguments"
    | some o =>
      let project := jsOr (List.lookup "project" o) (cfg.project.map .str)
      if truthyO project then
        .ok (.listWorkItems (project.getD .jnull) (List.lookup "query" o))
      else .error "Project is required"
  | "create_work_item" =>
    match args with
    | none => .error "Invalid arguments"
    | some o =>
      let p := List.lookup "project" o
      let t := List.lookup "type" o
      let ti := List.lookup "title" o
      if !truthyO p || !truthyO t || !truthyO ti then
        .error "Project, type, and title are required"
      else
        .ok (.createWorkItem (p.getD .jnull) (t.getD .jnull) (ti.getD .jnull)
              (List.lookup "description" o))
  | "list_builds" =>
    match args with
    | none => .error "Invalid arguments"
    | some o =>
      let project := jsOr (List.lookup "project" o) (cfg.project.map .str)
      if truthyO project then .ok (.listBuilds (project.getD .jnull))
      else .error "Project is required"
  | "list_repositories" =>
    match args with
    | none => .error "Invalid arguments"
    | some o =>
      let project := jsOr (List.lookup "project" o) (cfg.project.map .str)
      if truthyO project then .ok (.listRepositories (project.getD .jnull))
      else .error "Project is required"
  | _ => .error ("Unknown tool: " ++ name)

/-- Full `handleToolCall`: routing plus the backend call (supplied as an
oracle `bk` for the awaited Azure DevOps API operations), with every
thrown error re-thrown as `Error calling tool: <message>` by the
surrounding catch. -/
def handleToolCall000 {α : Type} (cfg : AzureDevOpsConfig)
    (bk : Call000 → Except String α) (name : String) (args : RawArgs) :
    Except String α :=
  match handleRoute cfg name args with
  | .error e => .error ("Error calling tool: " ++ e)
  | .ok c =>
    match bk c with
    | .error e => .error ("Error calling tool: " ++ e)
    | .ok v => .ok v

/-- The CallTool handler installed by index.ts around part_000:
on success it returns a text envelope holding the rendered result
(`JSON.stringify(result, null, 2)`, modelled by `render`), on a thrown
error a text envelope with `isError: true`. -/
def mainCallTool {α : Type} (cfg : AzureDevOpsConfig)
    (bk : Call000 → Except String α) (render : α → String)
    (name : String) (args : RawArgs) : Envelope :=
  match handleToolCall000 cfg bk name args with
  | .ok v => { content := [{ type := "text", text := render v }], isError := false }
  | .error e =>
    { content := [{ type := "text", text := "Error: " ++ e }], isError := true }

/-! ### part_000 tool catalog (`getTools`) -/

structure ParamSpec where
  key : String
  type : String
  description : String
deriving DecidableEq

structure InputSchema where
  type : String
  properties : List ParamSpec
  required : List String
deriving DecidableEq

structure ToolDescriptor where
  name : String
  description : String
  inputSchema : InputSchema
deriving DecidableEq

/-- Mutable state of an AzureDevOpsMCPServer instance: the configuration
plus the connection and the three derived API clients (modelled as
present/absent flags, since the code only null-checks them). -/
structure Server000State where
  config : AzureDevOpsConfig
  connection : Bool
  buildApi : Bool
  gitApi : Bool
  workItemApi : Bool
deriving DecidableEq

/-- `getTools()` of part_000: a literal catalog; the method reads no
mutable field of the instance. -/
def getTools000 (_st : Server000State) : List ToolDescriptor :=
  [ { name := "list_projects",
      description := "List all Azure DevOps projects",
      inputSchema := { type := "object", properties := [], required := [] } },
    { name := "list_work_items",
      description := "List work items in a project",
      inputSchema :=
        { type := "object",
          properties :=
            [ { key := "project", type := "string", description := "Project name" },
              { key := "query", type := "string", description := "Optional WIQL query" } ],
          required := ["project"] } },
    { name := "create_work_item",
      description := "Create a new work item",
      inputSchema :=
        { type := "object",
          properties :=
            [ { key := "project", type := "string", description := "Project name" },
              { key := "type", type := "string",
                description := "Work item type (e.g., Task, Bug, User Story)" },
              { key := "title", type := "string", description := "Work item title" },
              { key := "description", type := "string",
                description := "Work item description" } ],
          required := ["project", "type", "title"] } },
    { name := "list_builds",
      description := "List builds in a project",
      inputSchema :=
        { type := "object",
          properties :=
            [ { key := "project", type := "string", description := "Project name" } ],
          required := ["project"] } },
    { name := "list_repositories",
      description := "List Git repositories in a project",
      inputSchema :=
        { type := "object",
          properties :=
            [ { key := "project", type := "string", description := "Project name" } ],
          required := ["project"] } } ]

/-! ## part_001: AzureDevOpsServer (stdio variant with a connect tool)

The SSE server (mcp-sse-server.ts) duplicates this executeTool switch and
these tool methods verbatim, so the same embedding covers both.  Backend
operations (the awaited Azure DevOps API calls) are supplied by a
`Backend001` oracle; data records carry the field values as they are
rendered into the template strings.  The methods read the instance state
only through null checks of the connection and the three API clients,
modelled as presence flags; state mutation by the connect tool is treated
at step granularity in the credential-replacement model further below. -/

structure ServerState001 where
  connection : Bool
  buildApi : Bool
  gitApi : Bool
  workItemApi : Bool
deriving DecidableEq

/-- A fresh AzureDevOpsServer before any credential is supplied: all four
fields are initialised to null. -/
def uninit001 : ServerState001 := ⟨false, false, false, false⟩

structure ProjectSummary where
  name : String
  id : String
deriving DecidableEq

structure DefinitionSummary where
  name : String
  id : String
deriving DecidableEq

structure BuildData where
  id : String
  buildNumber : String
  status : String
  result : String
  startTime : String
  finishTime : String
deriving DecidableEq

structure RepoData where
  name : String
  id : String
  defaultBranch : String
  size : String
  remoteUrl : String
deriving DecidableEq

structure WorkItemRef where
  id : Option Int
deriving DecidableEq

structure WorkItemData where
  id : String
  fields : List (String × JsonVal)
  /-- The displayName projection of the System.AssignedTo field. -/
  assignedToDisplayName : Option JsonVal
deriving DecidableEq

structure CreatedWorkItem where
  id : String
deriving DecidableEq

structure PatchOp where
  op : String
  path : String
  value : Option JsonVal
deriving DecidableEq

structure Backend001 where
  /-- Outcome of the handshake performed by the awaited
  getBuildApi/getGitApi/getWorkItemTrackingApi sequence. -/
  connect : Except String Unit
  getProjects : Except String (List ProjectSummary)
  getDefinitions : Option JsonVal → Except String (List DefinitionSummary)
  getBuild : Option JsonVal → Option JsonVal → Except String BuildData
  getRepositories : Option JsonVal → Except String (List RepoData)
  getRepository : Option JsonVal → Option JsonVal → Except String RepoData
  queryByWiql : Option JsonVal → Except String (List WorkItemRef)
  getWorkItems : List Int → Except String (List WorkItemData)
  getWorkItemById : Option JsonVal → Except String WorkItemData
  createWorkItem : List PatchOp → Option JsonVal → Option JsonVal →
    Except String CreatedWorkItem

def notConnectedMsg : String :=
  "Not connected to Azure DevOps. Please use connect_azure_devops first."

def connectAzureDevOps001 (bk : Backend001)
    (orgUrl _token : Option JsonVal) : Except String Envelope :=
  match bk.connect with
  | .error e => .error ("Failed to connect to Azure DevOps: " ++ e)
  | .ok _ =>
    .ok (mkText ("Successfully connected to Azure DevOps organization: " ++
      renderO orgUrl))

def listProjects001 (st : ServerState001) (bk : Backend001) :
    Except String Envelope :=
  if !st.connection then .error notConnectedMsg
  else
    match bk.getProjects with
    | .error e => .error e
    | .ok projects =>
      .ok (mkText ("Projects:\n" ++ String.intercalate "\n"
        (projects.map (fun p => "- " ++ p.name ++ " (" ++ p.id ++ ")"))))

def listBuildDefinitions001 (st : ServerState001) (bk : Backend001)
    (project : Option JsonVal) : Except String Envelope :=
  if !st.buildApi then .error notConnectedMsg
  else
    match bk.getDefinitions project with
    | .error e => .error e
    | .ok definitions =>
      .ok (mkText ("Build Definitions for project " ++ renderO project ++
        ":\n" ++ String.intercalate "\n"
          (definitions.map (fun d => "- " ++ d.name ++ " (" ++ d.id ++ ")"))))

def getBuild001 (st : ServerState001) (bk : Backend001)
    (project buildId : Option JsonVal) : Except String Envelope :=
  if !st.buildApi then .error notConnectedMsg
  else
    match bk.getBuild project buildId with
    | .error e => .error e
    | .ok b =>
      .ok (mkText ("Build Details:\nID: " ++ b.id ++ "\nName: " ++
        b.buildNumber ++ "\nStatus: " ++ b.status ++ "\nResult: " ++
        b.result ++ "\nStart Time: " ++ b.startTime ++ "\nFinish Time: " ++
        b.finishTime))

def listRepositories001 (st : ServerState001) (bk : Backend001)
    (project : Option JsonVal) : Except String Envelope :=
  if !st.gitApi then .error notConnectedMsg
  else
    match bk.getRepositories project with
    | .error e => .error e
    | .ok repositories =>
      .ok (mkText ("Repositories for project " ++ renderO project ++ ":\n" ++
        String.intercalate "\n"
          (repositories.map (fun r => "- " ++ r.name ++ " (" ++ r.id ++ ")"))))

def getRepository001 (st : ServerState001) (bk : Backend001)
    (project repositoryId : Option JsonVal) : Except String Envelope :=
  if !st.gitApi then .error notConnectedMsg
  else
    match bk.getRepository repositoryId project with
    | .error e => .error e
    | .ok r =>
      .ok (mkText ("Repository Details:\nName: " ++ r.name ++ "\nID: " ++
        r.id ++ "\nDefault Branch: " ++ r.defaultBranch ++ "\nSize: " ++
        r.size ++ " bytes\nRemote URL: " ++ r.remoteUrl))

/-- The `project` parameter of listWorkItems is never read by the method
body in part_001; the WIQL query alone drives the backend call. -/
def listWorkItems001 (st : ServerState001) (bk : Backend001)
    (_project query : Option JsonVal) : Except String Envelope :=
  if !st.workItemApi then .error notConnectedMsg
  else
    match bk.queryByWiql query with
    | .error e => .error e
    | .ok refs =>
      if refs.length > 0 then
        match bk.getWorkItems (refs.filterMap (fun r => r.id)) with
        | .error e => .error e
        | .ok workItems =>
          .ok (mkText ("Work Items:\n" ++ String.intercalate "\n"
            (workItems.map (fun w => "- " ++
              renderO (jsOr (List.lookup "System.Title" w.fields)
                (some (.str "No Title"))) ++ " (" ++ w.id ++ ")"))))
      else .ok (mkText "No work items found matching the query.")

def getWorkItem001 (st : ServerState001) (bk : Backend001)
    (workItemId : Option JsonVal) : Except String Envelope :=
  if !st.workItemApi then .error notConnectedMsg
  else
    match bk.getWorkItemById workItemId with
    | .error e => .error e
    | .ok w =>
      .ok (mkText ("Work Item Details:\nID: " ++ w.id ++ "\nType: " ++
        renderO (List.lookup "System.WorkItemType" w.fields) ++
        "\nTitle: " ++ renderO (List.lookup "System.Title" w.fields) ++
        "\nState: " ++ renderO (List.lookup "System.State" w.fields) ++
        "\nAssigned To: " ++
        renderO (jsOr w.assignedToDisplayName (some (.str "Unassigned")))))

def createWorkItem001 (st : ServerState001) (bk : Backend001)
    (project workItemType title description : Option JsonVal) :
    Except String Envelope :=
  if !st.workItemApi then .error notConnectedMsg
  else
    let workItem :=
      [({ op := "add", path := "/fields/System.Title", value := title } : PatchOp)]
      ++ (if truthyO description then
            [({ op := "add", path := "/fields/System.Description",
                value := description } : PatchOp)]
          else [])
    match bk.createWorkItem workItem project workItemType with
    | .error e => .error e
    | .ok created =>
      .ok (mkText ("Successfully created work item:\nID: " ++ created.id ++
        "\nType: " ++ renderO workItemType ++ "\nTitle: " ++ renderO title))

/-- The switch of the CallTool handler in part_001 (identical in the SSE
executeTool): per-tool argument-object check, then the tool method; the
thrown message is the `Except.error` payload. -/
def executeTool001 (st : ServerState001) (bk : Backend001) (name : String)
    (args : RawArgs) : Except String Envelope :=
  match name with
  | "connect_azure_devops" =>
    match args with
    | none => .error "Invalid arguments for connect_azure_devops"
    | some o =>
      connectAzureDevOps001 bk (List.lookup "orgUrl" o) (List.lookup "token" o)
  | "list_projects" => listProjects001 st bk
  | "list_build_definitions" =>
    match args with
    | none => .error "Invalid arguments for list_build_definitions"
    | some o => listBuildDefinitions001 st bk (List.lookup "project" o)
  | "get_build" =>
    match args with
    | none => .error "Invalid arguments for get_build"
    | some o =>
      getBuild001 st bk (List.lookup "project" o) (List.lookup "buildId" o)
  | "list_repositories" =>
    match args with
    | none => .error "Invalid arguments for list_repositories"
    | some o => listRepositories001 st bk (List.lookup "project" o)
  | "get_repository" =>
    match args with
    | none => .error "Invalid arguments for get_repository"
    | some o =>
      getRepository001 st bk (List.lookup "project" o)
        (List.lookup "repositoryId" o)
  | "list_work_items" =>
    match args with
    | none => .error "Invalid arguments for list_work_items"
    | some o =>
      listWorkItems001 st bk (List.lookup "project" o) (List.lookup "query" o)
  | "get_work_item" =>
    match args with
    | none => .error "Invalid arguments for get_work_item"
    | some o => getWorkItem001 st bk (List.lookup "workItemId" o)
  | "create_work_item" =>
    match args with
    | none => .error "Invalid arguments for create_work_item"
    | some o =>
      createWorkItem001 st bk (List.lookup "project" o)
        (List.lookup "workItemType" o) (List.lookup "title" o)
        (List.lookup "description" o)
  | _ => .error ("Unknown tool: " ++ name)

/-- The CallTool handler of part_001 around executeTool: a thrown error is
converted into a text envelope; note the catch builds the envelope with
content only, so the isError flag stays at its absent default. -/
def mcpCallTool001 (st : ServerState001) (bk : Backend001) (name : String)
    (args : RawArgs) : Envelope :=
  match executeTool001 st bk name args with
  | .ok env => env
  | .error e =>
    { content := [{ type := "text",
                    text := "Error executing tool " ++ name ++ ": " ++ e }],
      isError := false }

/-- A concrete backend oracle used to evaluate the dispatcher on concrete
inputs. -/
def trivialBackend : Backend001 :=
  { connect := .ok ()
    getProjects := .ok []
    getDefinitions := fun _ => .ok []
    getBuild := fun _ _ => .error "build not found"
    getRepositories := fun _ => .ok []
    getRepository := fun _ _ => .error "repository not found"
    queryByWiql := fun _ => .ok []
    getWorkItems := fun _ => .ok []
    getWorkItemById := fun _ => .error "work item not found"
    createWorkItem := fun _ _ _ => .error "cannot create" }

/-! ## SSE server settings state and diagnostic endpoints

mcp-sse-server.ts keeps `cursorSettings` (orgUrl, project, token) and the
connection objects.  GET /health and GET /cursor-settings serialise the
stored `cursorSettings` record wholesale into the response body; only the
POST /cursor-settings response body replaces the token by the string
three-asterisks. -/

structure CursorMCPSettings where
  orgUrl : Option String
  project : Option String
  token : Option String
deriving DecidableEq

structure SseState where
  cursorSettings : CursorMCPSettings
  /-- Whether this.connection is non-null. -/
  connected : Bool
deriving DecidableEq

structure HealthResponse where
  status : String
  service : String
  cursorSettings : CursorMCPSettings
  connected : Bool
deriving DecidableEq

/-- GET /health handler body. -/
def healthHandler (st : SseState) : HealthResponse :=
  { status := "healthy"
    service := "azure-devops-mcp-server"
    cursorSettings := st.cursorSettings
    connected := st.connected }

structure SettingsGetResponse where
  settings : CursorMCPSettings
  connected : Bool
deriving DecidableEq

/-- GET /cursor-settings handler body. -/
def cursorSettingsGetHandler (st : SseState) : SettingsGetResponse :=
  { settings := st.cursorSettings, connected := st.connected }

structure SettingsPostOkResponse where
  success : Bool
  message : String
  settings : CursorMCPSettings
deriving DecidableEq

inductive SettingsPostResult where
  | badRequest (error : String)
  | ok (resp : SettingsPostOkResponse)
  | serverError (error details : String)
deriving DecidableEq

/-- Truthiness of a possibly-absent string request field. -/
def strTruthy : Option String → Bool
  | none => false
  | some s => s != ""

/-- POST /cursor-settings handler: after the presence check it stores the
raw settings (token included), then calls connectAzureDevOps (outcome
supplied by `connectOutcome`).  connectAzureDevOps assigns this.connection
synchronously before the awaited API initialisation, so `connected`
becomes true even when the handshake then fails; on failure the endpoint
answers 500 while the stored settings keep the raw token.  The success
response body replaces the token by three asterisks. -/
def cursorSettingsPost (st : SseState) (orgUrl project token : Option String)
    (connectOutcome : Except String Unit) : SseState × SettingsPostResult :=
  if !(strTruthy orgUrl && strTruthy token) then
    (st, .badRequest "orgUrl and token are required")
  else
    let st1 : SseState :=
      { cursorSettings := { orgUrl := orgUrl, project := project, token := token }
        connected := true }
    match connectOutcome with
    | .ok _ =>
      (st1, .ok { success := true
                  message := "Cursor MCP settings updated and connected to Azure DevOps"
                  settings := { orgUrl := orgUrl, project := project,
                                token := some "***" } })
    | .error e =>
      (st1, .serverError "Failed to update Cursor MCP settings" e)

/-! ## Single-flight model of connection establishment (connect_azure_devops)

Concurrency in the source is interleaved asynchronous execution: suspension
happens at the awaited backend calls.  Each invocation of
connectAzureDevOps runs, unconditionally and without consulting any
in-flight state, the synchronous `new WebApi` assignment followed by the
awaited API-initialisation sequence that performs the backend handshake.
A scheduler interleaves the pending invocations; the trace records which
atomic steps ran. -/

inductive CStep where
  /-- `this.connection = new azdev.WebApi(orgUrl, authHandler)` (synchronous). -/
  | newWebApi
  /-- The awaited getBuildApi/getGitApi/getWorkItemTrackingApi sequence:
  the backend handshake primitive of one connection attempt. -/
  | handshakeApis
deriving DecidableEq

/-- The step sequence of one connectAzureDevOps invocation. -/
def connectProgram : List CStep := [.newWebApi, .handshakeApis]

/-- Run one scheduling slot: caller `i` (if it exists and has steps left)
executes its next atomic step, which is appended to the trace. -/
def stepOnce (ps : List (List CStep)) (i : Nat) :
    List (List CStep) × List CStep :=
  match ps[i]? with
  | some (s :: rest) => (ps.set i rest, [s])
  | _ => (ps, [])

/-- Run a whole schedule (a list of caller indices); returns the remaining
programs and the emitted trace. -/
def runSched : List (List CStep) → List Nat → List (List CStep) × List CStep
  | ps, [] => (ps, [])
  | ps, i :: sched =>
    let p1 := stepOnce ps i
    let p2 := runSched p1.1 sched
    (p2.1, p1.2 ++ p2.2)

/-- Number of backend handshake executions recorded in a trace. -/
def hsCount (t : List CStep) : Nat := t.count .handshakeApis

/-- Handshake steps still pending in the unfinished programs. -/
def pendingHs (ps : List (List CStep)) : Nat := (ps.map hsCount).sum

/-! ## Credential replacement at component granularity (for the session
handle invariant)

connectAzureDevOps overwrites the connection and the three derived API
clients one field at a time; each component is tagged with the credential
(numbered) it was created from, and the awaited calls between the
assignments are suspension points at which other invocations can observe
the fields. -/

structure SessionComponents where
  connection : Option Nat
  buildApi : Option Nat
  gitApi : Option Nat
  workItemApi : Option Nat
deriving DecidableEq

inductive ConnectStep where
  /-- `this.connection = new azdev.WebApi(...)` for credential c. -/
  | assignConnection (c : Nat)
  /-- `this.buildApi = await this.connection.getBuildApi()`. -/
  | assignBuildApi (c : Nat)
  /-- `this.gitApi = await this.connection.getGitApi()`. -/
  | assignGitApi (c : Nat)
  /-- `this.workItemApi = await this.connection.getWorkItemTrackingApi()`. -/
  | assignWorkItemApi (c : Nat)
deriving DecidableEq

/-- The assignment sequence of connectAzureDevOps for credential c, in
source order. -/
def connectAzureDevOpsSteps (c : Nat) : List ConnectStep :=
  [.assignConnection c, .assignBuildApi c, .assignGitApi c, .assignWorkItemApi c]

def applyConnectStep (s : SessionComponents) : ConnectStep → SessionComponents
  | .assignConnection c => { s with connection := some c }
  | .assignBuildApi c => { s with buildApi := some c }
  | .assignGitApi c => { s with gitApi := some c }
  | .assignWorkItemApi c => { s with workItemApi := some c }

def applyConnectSteps (s : SessionComponents) (steps : List ConnectStep) :
    SessionComponents :=
  steps.foldl applyConnectStep s

/-- The complete handle derived from one credential. -/
def uniformHandle (c : Nat) : SessionComponents :=
  { connection := some c, buildApi := some c, gitApi := some c,
    workItemApi := some c }

/-- An observation is unmixed when every component derives from one and the
same credential. -/
def IsUniform (s : SessionComponents) : Prop := ∃ c, s = uniformHandle c

/-! ## Helper lemmas for the scheduler model -/

lemma stepOnce_cons_succ (p : List CStep) (tl : List (List CStep)) (n : Nat) :
    stepOnce (p :: tl) (n + 1) = ((p :: (stepOnce tl n).1), (stepOnce tl n).2) := by
  unfold stepOnce
  rw [List.getElem?_cons_succ]
  cases h : tl[n]? with
  | none => simp [h]
  | some l =>
    cases l with
    | nil => simp [h]
    | cons s rest => simp [h]

lemma stepOnce_inv (ps : List (List CStep)) (i : Nat) :
    pendingHs (stepOnce ps i).1 + hsCount (stepOnce ps i).2 = pendingHs ps := by
  induction ps generalizing i with
  | nil => simp [stepOnce, pendingHs, hsCount]
  | cons p tl ih =>
    cases i with
    | zero =>
      cases p with
      | nil => simp [stepOnce, pendingHs, hsCount]
      | cons s rest =>
        cases s <;>
          simp [stepOnce, pendingHs, hsCount, List.count_cons]
        omega
    | succ n =>
      rw [stepOnce_cons_succ]
      have := ih n
      simp [pendingHs] at this ⊢
      omega

lemma runSched_inv (sched : List Nat) (ps : List (List CStep)) :
    pendingHs (runSched ps sched).1 + hsCount (runSched ps sched).2 =
      pendingHs ps := by
  induction sched generalizing ps with
  | nil => simp [runSched, hsCount]
  | cons i sched ih =>
    have h1 := stepOnce_inv ps i
    have h2 := ih (stepOnce ps i).1
    simp only [runSched, hsCount, List.count_append] at h2 ⊢
    simp only [hsCount] at h1
    omega

lemma pendingHs_of_all_done (ps : List (List CStep))
    (h : ps.all List.isEmpty = true) : pendingHs ps = 0 := by
  induction ps with
  | nil => simp [pendingHs]
  | cons p tl ih =>
    simp only [List.all_cons, Bool.and_eq_true] at h
    cases p with
    | nil =>
      simp only [pendingHs, List.map_cons, List.sum_cons]
      have := ih h.2
      simp [pendingHs] at this
      simp [hsCount, this]
    | cons s rest => simp at h

lemma pendingHs_replicate (n : Nat) :
    pendingHs (List.replicate n connectProgram) = n := by
  simp [pendingHs, List.map_replicate, List.sum_replicate,
    show hsCount connectProgram = 1 from rfl]

/-! ## Claim theorems -/

/-- C1 counterexample: two callers invoke connect_azure_devops concurrently
while no session exists (two copies of the connect step program, complete
interleaved schedule); the backend handshake primitive executes twice,
not exactly once as the claim states. -/
theorem c1_counterexample :
    hsCount (runSched (List.replicate 2 connectProgram) [0, 0, 1, 1]).2 = 2 ∧
    ¬ hsCount (runSched (List.replicate 2 connectProgram) [0, 0, 1, 1]).2 = 1 := by
  decide

/-- C1 (amended): each of the N concurrent connect_azure_devops invocations
independently executes the backend handshake; under every complete
interleaving of N callers the handshake primitive runs exactly N times
(once per caller), so each caller receives the outcome of its own attempt
and there is no single-flight coalescing. -/
theorem c1_handshake_per_caller (n : Nat) (sched : List Nat)
    (h : (runSched (List.replicate n connectProgram) sched).1.all
          List.isEmpty = true) :
    hsCount (runSched (List.replicate n connectProgram) sched).2 = n := by
  have hinv := runSched_inv sched (List.replicate n connectProgram)
  rw [pendingHs_of_all_done _ h, pendingHs_replicate] at hinv
  omega

theorem c1_handshake_per_caller_witness :
    (runSched (List.replicate 2 connectProgram) [0, 1, 0, 1]).1.all
      List.isEmpty = true ∧
    hsCount (runSched (List.replicate 2 connectProgram) [0, 1, 0, 1]).2 = 2 :=
  ⟨by decide, c1_handshake_per_caller 2 [0, 1, 0, 1] (by decide)⟩

/-- C4 counterexample: starting from the complete handle of credential 0,
running the first two assignments of a replacement with credential 1 (the
state at the await suspension point after getBuildApi, where other
invocations are scheduled) leaves a mixed handle: connection and buildApi
from credential 1, gitApi and workItemApi from credential 0 — neither the
complete old handle nor the complete new one. -/
theorem c4_counterexample :
    applyConnectSteps (uniformHandle 0) ((connectAzureDevOpsSteps 1).take 2) =
      { connection := some 1, buildApi := some 1, gitApi := some 0,
        workItemApi := some 0 } ∧
    ¬ IsUniform
        (applyConnectSteps (uniformHandle 0)
          ((connectAzureDevOpsSteps 1).take 2)) := by
  refine ⟨rfl, ?_⟩
  rintro ⟨c, hc⟩
  simp [applyConnectSteps, connectAzureDevOpsSteps, applyConnectStep,
    uniformHandle, SessionComponents.mk.injEq] at hc
  omega

/-- C4 (amended): connectAzureDevOps overwrites the connection and the
three derived API clients one field at a time with await suspension points
in between, so a caller scheduled during an in-flight replacement can
observe components from two credentials; once all four assignments of a
replacement complete, every component derives from the new credential,
whatever the previous state was. -/
theorem c4_replacement_completes_uniform (s : SessionComponents) (c : Nat) :
    applyConnectSteps s (connectAzureDevOpsSteps c) = uniformHandle c := rfl

/-- C8: the tool catalog returned by getTools reads no mutable state: in
any two states (whatever operations produced them) the listing returns
identical descriptors — same names, descriptions and schemas — in the same
fixed order. -/
theorem c8_catalog_deterministic (s t : Server000State) :
    getTools000 s = getTools000 t ∧
    (getTools000 s).map ToolDescriptor.name =
      ["list_projects", "list_work_items", "create_work_item", "list_builds",
       "list_repositories"] :=
  ⟨rfl, rfl⟩

/-! ## Reduction lemmas for the part_000 routing stage -/

lemma handleRoute_list_projects (cfg : AzureDevOpsConfig) (args : RawArgs) :
    handleRoute cfg "list_projects" args = .ok .listProjects := rfl

lemma handleRoute_list_work_items (cfg : AzureDevOpsConfig) (o : JsonObj) :
    handleRoute cfg "list_work_items" (some o) =
      (if truthyO (jsOr (List.lookup "project" o) (cfg.project.map .str)) then
        .ok (.listWorkItems
          ((jsOr (List.lookup "project" o) (cfg.project.map .str)).getD .jnull)
          (List.lookup "query" o))
      else .error "Project is required") := rfl

lemma handleRoute_create_work_item (cfg : AzureDevOpsConfig) (o : JsonObj) :
    handleRoute cfg "create_work_item" (some o) =
      (if !truthyO (List.lookup "project" o) || !truthyO (List.lookup "type" o)
          || !truthyO (List.lookup "title" o) then
        .error "Project, type, and title are required"
      else
        .ok (.createWorkItem ((List.lookup "project" o).getD .jnull)
          ((List.lookup "type" o).getD .jnull)
          ((List.lookup "title" o).getD .jnull)
          (List.lookup "description" o))) := rfl

lemma handleRoute_list_builds (cfg : AzureDevOpsConfig) (o : JsonObj) :
    handleRoute cfg "list_builds" (some o) =
      (if truthyO (jsOr (List.lookup "project" o) (cfg.project.map .str)) then
        .ok (.listBuilds
          ((jsOr (List.lookup "project" o) (cfg.project.map .str)).getD .jnull))
      else .error "Project is required") := rfl

lemma handleRoute_list_repositories (cfg : AzureDevOpsConfig) (o : JsonObj) :
    handleRoute cfg "list_repositories" (some o) =
      (if truthyO (jsOr (List.lookup "project" o) (cfg.project.map .str)) then
        .ok (.listRepositories
          ((jsOr (List.lookup "project" o) (cfg.project.map .str)).getD .jnull))
      else .error "Project is required") := rfl

/-- A configuration with no default project, used for concrete evaluation. -/
def sampleConfig : AzureDevOpsConfig :=
  { orgUrl := "https://dev.azure.com/org", token := "token", project := none }

/-- The missing-required-fields list described by the spec, modelled from
the spec words for comparison with the behaviour of the code: for each
required parameter absent from the raw arguments, a missing-field error is
accumulated. -/
def specMissingFields (required : List String) (o : JsonObj) : List String :=
  required.filter (fun k => (List.lookup k o).isNone)

/-- C2 (code bug evidence): after a settings update carrying the secret
token, the GET /health response and the GET /cursor-settings response both
contain the stored token verbatim, while the POST response body is the one
place the token is replaced by three asterisks — the code redacts the
secret in one diagnostic output but serialises it in full in the other
two. -/
theorem c2_health_leaks_token :
    (healthHandler
        ((cursorSettingsPost ⟨⟨none, none, none⟩, false⟩
            (some "https://dev.azure.com/org") (some "Proj")
            (some "secret-pat-123") (.ok ())).1)).cursorSettings.token =
      some "secret-pat-123" ∧
    (cursorSettingsGetHandler
        ((cursorSettingsPost ⟨⟨none, none, none⟩, false⟩
            (some "https://dev.azure.com/org") (some "Proj")
            (some "secret-pat-123") (.ok ())).1)).settings.token =
      some "secret-pat-123" ∧
    (cursorSettingsPost ⟨⟨none, none, none⟩, false⟩
        (some "https://dev.azure.com/org") (some "Proj")
        (some "secret-pat-123") (.ok ())).2 =
      .ok { success := true
            message := "Cursor MCP settings updated and connected to Azure DevOps"
            settings := { orgUrl := some "https://dev.azure.com/org"
                          project := some "Proj", token := some "***" } } :=
  ⟨rfl, rfl, rfl⟩

/-- C5 counterexample: the arguments holding project and type but missing
only title produce exactly the same error as the empty object, although
their sets of missing required fields differ; the reported error is a
fixed sentence naming the whole required set, so it does not identify
each missing field specifically (it cannot distinguish which fields were
missing). -/
theorem c5_counterexample :
    handleRoute sampleConfig "create_work_item"
        (some [("project", .str "P"), ("type", .str "Task")]) =
      .error "Project, type, and title are required" ∧
    handleRoute sampleConfig "create_work_item" (some []) =
      .error "Project, type, and title are required" ∧
    specMissingFields ["project", "type", "title"]
        [("project", .str "P"), ("type", .str "Task")] = ["title"] ∧
    specMissingFields ["project", "type", "title"] [] =
      ["project", "type", "title"] := by
  refine ⟨rfl, rfl, ?_, ?_⟩ <;> rfl

/-- C5 (amended): whenever any of the required fields project, type or
title of create_work_item is absent or falsy, validation throws the single
fixed message naming the whole required set — it does not compute the
per-input missing-field list; for the tools whose only required field is
project, the empty object is rejected with the fixed message
"Project is required" when no default project is configured. -/
theorem c5_fixed_message (cfg : AzureDevOpsConfig) (o : JsonObj) :
    (handleRoute cfg "create_work_item" (some o) =
        .error "Project, type, and title are required" ↔
      (truthyO (List.lookup "project" o) && truthyO (List.lookup "type" o) &&
        truthyO (List.lookup "title" o)) = false) ∧
    (cfg.project = none → List.lookup "project" o = none →
      handleRoute cfg "list_work_items" (some o) =
        .error "Project is required") := by
  constructor
  · rw [handleRoute_create_work_item]
    cases hp : truthyO (List.lookup "project" o) <;>
      cases ht : truthyO (List.lookup "type" o) <;>
        cases hti : truthyO (List.lookup "title" o) <;> simp
  · intro hcfg hlook
    rw [handleRoute_list_work_items, hcfg, hlook]
    simp [jsOr, truthyO]

theorem c5_fixed_message_witness :
    handleRoute sampleConfig "create_work_item"
        (some [("type", .str "Task"), ("title", .str "T")]) =
      .error "Project, type, and title are required" ∧
    handleRoute sampleConfig "list_work_items" (some []) =
      .error "Project is required" :=
  ⟨(c5_fixed_message sampleConfig [("type", .str "Task"), ("title", .str "T")]).1.mpr
      (by decide),
   (c5_fixed_message sampleConfig []).2 rfl rfl⟩

/-- The object keys the part_000 dispatcher reads for each tool. -/
def call000Keys (name : String) : List String :=
  match name with
  | "list_work_items" => ["project", "query"]
  | "create_work_item" => ["project", "type", "title", "description"]
  | "list_builds" => ["project"]
  | "list_repositories" => ["project"]
  | _ => []

/-- C7: for every tool of the part_000 catalog, the outcome of validation
and routing depends only on the fields the tool's schema declares: two
argument objects agreeing on those keys are dispatched identically, so
extra unknown keys never cause a validation error and the invocation
proceeds exactly as if they were absent. -/
theorem c7_extra_keys_ignored (cfg : AzureDevOpsConfig) (name : String)
    (hname : name ∈ ["list_projects", "list_work_items", "create_work_item",
      "list_builds", "list_repositories"])
    (a b : JsonObj)
    (hk : ∀ k ∈ call000Keys name, List.lookup k a = List.lookup k b) :
    handleRoute cfg name (some a) = handleRoute cfg name (some b) := by
  simp only [List.mem_cons, List.not_mem_nil, or_false] at hname
  rcases hname with rfl | rfl | rfl | rfl | rfl
  · rfl
  · have h1 := hk "project" (by simp [call000Keys])
    have h2 := hk "query" (by simp [call000Keys])
    rw [handleRoute_list_work_items, handleRoute_list_work_items, h1, h2]
  · have h1 := hk "project" (by simp [call000Keys])
    have h2 := hk "type" (by simp [call000Keys])
    have h3 := hk "title" (by simp [call000Keys])
    have h4 := hk "description" (by simp [call000Keys])
    rw [handleRoute_create_work_item, handleRoute_create_work_item,
      h1, h2, h3, h4]
  · have h1 := hk "project" (by simp [call000Keys])
    rw [handleRoute_list_builds, handleRoute_list_builds, h1]
  · have h1 := hk "project" (by simp [call000Keys])
    rw [handleRoute_list_repositories, handleRoute_list_repositories, h1]

theorem c7_extra_keys_ignored_witness :
    handleRoute sampleConfig "list_work_items"
        (some [("project", .str "X"), ("extra", .str "ignored")]) =
      handleRoute sampleConfig "list_work_items" (some [("project", .str "X")]) ∧
    handleRoute sampleConfig "list_work_items"
        (some [("project", .str "X"), ("extra", .str "ignored")]) =
      .ok (.listWorkItems (.str "X") none) :=
  ⟨c7_extra_keys_ignored sampleConfig "list_work_items" (by decide)
      [("project", .str "X"), ("extra", .str "ignored")]
      [("project", .str "X")] (by decide),
   rfl⟩

/-- C9: in the configuration-driven variant, when a nonempty default
project is configured, list_work_items, list_builds and list_repositories
dispatch with the configured default substituted for an absent project
argument and raise no missing-field error; when no default project is
configured, the same calls are rejected with the missing-project message. -/
theorem c9_default_project (cfg : AzureDevOpsConfig) (p : String)
    (hp : cfg.project = some p) (hne : p ≠ "") (o : JsonObj)
    (ho : List.lookup "project" o = none) :
    handleRoute cfg "list_work_items" (some o) =
      .ok (.listWorkItems (.str p) (List.lookup "query" o)) ∧
    handleRoute cfg "list_builds" (some o) = .ok (.listBuilds (.str p)) ∧
    handleRoute cfg "list_repositories" (some o) =
      .ok (.listRepositories (.str p)) ∧
    (∀ cfg2 : AzureDevOpsConfig, cfg2.project = none →
      handleRoute cfg2 "list_work_items" (some o) =
          .error "Project is required" ∧
        handleRoute cfg2 "list_builds" (some o) =
          .error "Project is required" ∧
        handleRoute cfg2 "list_repositories" (some o) =
          .error "Project is required") := by
  have htr : truthyO (jsOr (List.lookup "project" o) (cfg.project.map .str)) =
      true := by
    rw [ho, hp]
    simp [jsOr, truthyO, truthyV, hne]
  have hval : jsOr (List.lookup "project" o) (cfg.project.map .str) =
      some (.str p) := by
    rw [ho, hp]
    simp [jsOr, truthyO]
  refine ⟨?_, ?_, ?_, ?_⟩
  · rw [handleRoute_list_work_items, htr]
    simp [hval]
  · rw [handleRoute_list_builds, htr]
    simp [hval]
  · rw [handleRoute_list_repositories, htr]
    simp [hval]
  · intro cfg2 h2
    have hfalse : truthyO (jsOr (List.lookup "project" o)
        (cfg2.project.map .str)) = false := by
      rw [ho, h2]
      simp [jsOr, truthyO]
    refine ⟨?_, ?_, ?_⟩
    · rw [handleRoute_list_work_items, hfalse]
      simp
    · rw [handleRoute_list_builds, hfalse]
      simp
    · rw [handleRoute_list_repositories, hfalse]
      simp

/-- A configuration with the default project MyProject, for evaluation. -/
def defaultProjectConfig : AzureDevOpsConfig :=
  { orgUrl := "https://dev.azure.com/org", token := "token",
    project := some "MyProject" }

theorem c9_default_project_witness :
    handleRoute defaultProjectConfig "list_work_items"
        (some [("query", .str "SELECT 1")]) =
      .ok (.listWorkItems (.str "MyProject") (some (.str "SELECT 1"))) ∧
    handleRoute sampleConfig "list_builds" (some [("query", .str "SELECT 1")]) =
      .error "Project is required" :=
  ⟨by
    have h := (c9_default_project defaultProjectConfig "MyProject" rfl
      (by decide) [("query", .str "SELECT 1")] rfl).1
    simpa using h,
   ((c9_default_project defaultProjectConfig "MyProject" rfl (by decide)
      [("query", .str "SELECT 1")] rfl).2.2.2 sampleConfig rfl).2.1⟩

/-! ## The part_001 handler never sets the isError flag -/

/-- Every success envelope an outcome can produce has the isError flag at
its absent default. -/
def NoFlag (e : Except String Envelope) : Prop :=
  ∀ env, e = .ok env → env.isError = false

lemma noFlag_connect (bk : Backend001) (orgUrl token : Option JsonVal) :
    NoFlag (connectAzureDevOps001 bk orgUrl token) := by
  intro env h
  unfold connectAzureDevOps001 at h
  split at h
  · cases h
  · cases h; rfl

lemma noFlag_listProjects (st : ServerState001) (bk : Backend001) :
    NoFlag (listProjects001 st bk) := by
  intro env h
  unfold listProjects001 at h
  split at h
  · cases h
  · split at h
    · cases h
    · cases h; rfl

lemma noFlag_listBuildDefinitions (st : ServerState001) (bk : Backend001)
    (project : Option JsonVal) :
    NoFlag (listBuildDefinitions001 st bk project) := by
  intro env h
  unfold listBuildDefinitions001 at h
  split at h
  · cases h
  · split at h
    · cases h
    · cases h; rfl

lemma noFlag_getBuild (st : ServerState001) (bk : Backend001)
    (project buildId : Option JsonVal) :
    NoFlag (getBuild001 st bk project buildId) := by
  intro env h
  unfold getBuild001 at h
  split at h
  · cases h
  · split at h
    · cases h
    · cases h; rfl

lemma noFlag_listRepositories (st : ServerState001) (bk : Backend001)
    (project : Option JsonVal) :
    NoFlag (listRepositories001 st bk project) := by
  intro env h
  unfold listRepositories001 at h
  split at h
  · cases h
  · split at h
    · cases h
    · cases h; rfl

lemma noFlag_getRepository (st : ServerState001) (bk : Backend001)
    (project repositoryId : Option JsonVal) :
    NoFlag (getRepository001 st bk project repositoryId) := by
  intro env h
  unfold getRepository001 at h
  split at h
  · cases h
  · split at h
    · cases h
    · cases h; rfl

lemma noFlag_listWorkItems (st : ServerState001) (bk : Backend001)
    (project query : Option JsonVal) :
    NoFlag (listWorkItems001 st bk project query) := by
  intro env h
  unfold listWorkItems001 at h
  split at h
  · cases h
  · split at h
    · cases h
    · split at h
      · split at h
        · cases h
        · cases h; rfl
      · cases h; rfl

lemma noFlag_getWorkItem (st : ServerState001) (bk : Backend001)
    (workItemId : Option JsonVal) :
    NoFlag (getWorkItem001 st bk workItemId) := by
  intro env h
  unfold getWorkItem001 at h
  split at h
  · cases h
  · split at h
    · cases h
    · cases h; rfl

lemma noFlag_createWorkItem (st : ServerState001) (bk : Backend001)
    (project workItemType title description : Option JsonVal) :
    NoFlag (createWorkItem001 st bk project workItemType title description) := by
  intro env h
  unfold createWorkItem001 at h
  split at h
  · cases h
  · cases hd : truthyO description
    · simp only [hd, Bool.false_eq_true, if_false] at h
      split at h
      · cases h
      · cases h; rfl
    · simp only [hd, if_true] at h
      split at h
      · cases h
      · cases h; rfl

lemma noFlag_executeTool (st : ServerState001) (bk : Backend001)
    (name : String) (args : RawArgs) :
    NoFlag (executeTool001 st bk name args) := by
  intro env h
  unfold executeTool001 at h
  split at h <;> try split at h
  all_goals
    first
      | cases h
      | exact noFlag_connect _ _ _ env h
      | exact noFlag_listProjects _ _ env h
      | exact noFlag_listBuildDefinitions _ _ _ env h
      | exact noFlag_getBuild _ _ _ _ env h
      | exact noFlag_listRepositories _ _ _ env h
      | exact noFlag_getRepository _ _ _ _ env h
      | exact noFlag_listWorkItems _ _ _ _ env h
      | exact noFlag_getWorkItem _ _ _ env h
      | exact noFlag_createWorkItem _ _ _ _ _ _ env h

lemma mcpCallTool001_no_flag (st : ServerState001) (bk : Backend001)
    (name : String) (args : RawArgs) :
    (mcpCallTool001 st bk name args).isError = false := by
  cases hE : executeTool001 st bk name args with
  | ok env =>
    have := noFlag_executeTool st bk name args env hE
    simp [mcpCallTool001, hE, this]
  | error e => simp [mcpCallTool001, hE]

/-- C3 counterexample: two failing invocations via the part_001 CallTool
handler — an unknown tool name, and a session-requiring tool before any
credential — both return their error as text content with the isError
flag left at its absent default, so a failing invocation does not carry
the error flag in this variant. -/
theorem c3_counterexample :
    mcpCallTool001 uninit001 trivialBackend "nope" (some []) =
      { content := [{ type := "text",
                      text := "Error executing tool nope: Unknown tool: nope" }],
        isError := false } ∧
    mcpCallTool001 uninit001 trivialBackend "list_projects" (some []) =
      { content := [{ type := "text",
                      text := "Error executing tool list_projects: Not connected to Azure DevOps. Please use connect_azure_devops first." }],
        isError := false } :=
  ⟨rfl, rfl⟩

/-- C3 (amended): the config-driven stdio variant sets the isError flag
exactly on failing invocations (and never on successes), while the
AzureDevOpsServer stdio handler and the SSE MCP handler never set the
flag on any envelope — their failures are reported as text content
only. -/
theorem c3_error_flag_by_variant (α : Type) (cfg : AzureDevOpsConfig)
    (bk : Call000 → Except String α) (render : α → String) (name : String)
    (args : RawArgs) (st : ServerState001) (bk1 : Backend001) :
    (mainCallTool cfg bk render name args).isError =
      exceptHasError (handleToolCall000 cfg bk name args) ∧
    (mcpCallTool001 st bk1 name args).isError = false := by
  constructor
  · cases h : handleToolCall000 cfg bk name args <;>
      simp [mainCallTool, exceptHasError, h]
  · exact mcpCallTool001_no_flag st bk1 name args

/-- C6: invoking any of the eight session-requiring tools of the part_001
catalog before any credential has been supplied returns, through the
total CallTool handler (no failure escapes it), the error envelope
carrying the not-connected message. -/
theorem c6_not_connected_envelope (name : String)
    (h : name ∈ ["list_projects", "list_build_definitions", "get_build",
      "list_repositories", "get_repository", "list_work_items",
      "get_work_item", "create_work_item"])
    (bk : Backend001) (o : JsonObj) :
    mcpCallTool001 uninit001 bk name (some o) =
      { content := [{ type := "text",
                      text := "Error executing tool " ++ name ++ ": " ++ notConnectedMsg }],
        isError := false } := by
  simp only [List.mem_cons, List.not_mem_nil, or_false] at h
  rcases h with rfl | rfl | rfl | rfl | rfl | rfl | rfl | rfl <;> rfl

theorem c6_not_connected_envelope_witness :
    "list_projects" ∈ (["list_projects", "list_build_definitions", "get_build",
      "list_repositories", "get_repository", "list_work_items",
      "get_work_item", "create_work_item"] : List String) ∧
    mcpCallTool001 uninit001 trivialBackend "list_projects" (some []) =
      { content := [{ type := "text",
                      text := "Error executing tool list_projects: Not connected to Azure DevOps. Please use connect_azure_devops first." }],
        isError := false } :=
  ⟨by decide,
   c6_not_connected_envelope "list_projects" (by decide) trivialBackend []⟩
